import Mathlib

/-!
Shallow embedding of the chess legality core from `src/board.rs` and
`src/position.rs` (the crate root `main.rs` declares only the `board` and
`position` modules; `square.rs` and `player.rs` are dead files).

Conventions used throughout:
* `u8` values are modelled as `Nat`; where the Rust code uses
  `u8::wrapping_add_signed` we wrap explicitly modulo 256
  (`wrapAddSigned`).  Signed differences computed in the source as
  `u8` subtraction reinterpreted `as i8` are modelled as plain `Int`
  subtraction, which agrees with the source on the in-range (0..7)
  coordinates on which those expressions are reached.
* `board.rs` names the coordinate fields `row`/`col`; `position.rs`
  accesses the same structure through the names `file`/`rank`.  The
  wiring of `increment_coord` and `is_path_clear` into
  `BoardPathIter::next` identifies `file` with `row` and `rank` with
  `col` (increment component 0 is added to `file` on one side and to
  `row` on the other), and the embedding uses that identification.
* Rust iterators are modelled by their `next` step functions, with an
  explicit fuel bound where the source can loop; exhausting the fuel is
  reported as `none` ("the source diverges here").
-/

inductive Color where
  | White
  | Black
deriving DecidableEq, Repr

/-- Turn alternation helper: the `match` on the mover's color that
`Position::next_turn` performs inline. -/
def Color.flipColor : Color → Color
  | .White => .Black
  | .Black => .White

inductive Piece where
  | Pawn
  | Knight
  | Bishop
  | Queen
  | Rook
  | King
deriving DecidableEq, Repr

/-- Alias letting `Piece` be mentioned inside the `Square` namespace,
where the name would otherwise resolve to the `Square.Piece`
constructor. -/
abbrev PieceKind := Piece

inductive Square where
  | Empty
  | Piece (piece : Piece) (color : Color)
deriving DecidableEq, Repr

/-- Mirrors `Square::piece`. -/
def Square.piece : Square → Option (PieceKind × Color)
  | .Empty => none
  | .Piece p c => some (p, c)

/-- Mirrors `Square::piece_kind`. -/
def Square.pieceKind : Square → Option PieceKind
  | .Empty => none
  | .Piece p _ => some p

/-- Mirrors `Square::player`. -/
def Square.player : Square → Option Color
  | .Empty => none
  | .Piece _ c => some c

/-- Mirrors `Coord` from `board.rs`: a pair of `u8` fields. -/
structure Coord where
  row : Nat
  col : Nat
deriving DecidableEq, Repr

/-- Mirrors `Coord::make`. -/
def Coord.make (row col : Nat) : Coord := ⟨row, col⟩

/-- Models `u8::wrapping_add_signed`. -/
def wrapAddSigned (x : Nat) (d : Int) : Nat :=
  (((x : Int) + d) % 256).toNat

/-- Models `u8::abs_diff`. -/
def absDiffU8 (a b : Nat) : Nat :=
  if b ≤ a then a - b else b - a

/-- Mirrors `Board`: a fixed 8×8 grid of squares. -/
structure Board where
  pieces : Fin 8 → Fin 8 → Square

/-- Mirrors `Board::square`: a bounds-checked lookup that fails closed on
out-of-range coordinates. -/
def Board.square (b : Board) (c : Coord) : Option Square :=
  if hr : c.row < 8 then
    if hc : c.col < 8 then some (b.pieces ⟨c.row, hr⟩ ⟨c.col, hc⟩)
    else none
  else none

/-- Write to one grid cell.  The Rust counterpart
(`square_unchecked_mut`) indexes the array directly and would panic out
of range; the model leaves the board unchanged there, and every call
site below reaches it with in-range coordinates only. -/
def Board.setSquare (b : Board) (c : Coord) (s : Square) : Board :=
  if hr : c.row < 8 then
    if hc : c.col < 8 then
      ⟨fun r k => if r = ⟨c.row, hr⟩ ∧ k = ⟨c.col, hc⟩ then s else b.pieces r k⟩
    else b
  else b

/-- Read one grid cell, defaulting out of range (the Rust
`square_unchecked` panics there; see `Board.setSquare`). -/
def Board.squareUnchecked (b : Board) (c : Coord) : Square :=
  (b.square c).getD .Empty

/-- Mirrors `Board::move_unchecked`: empty the origin cell first, then
read and overwrite the target cell, returning the prior contents of
both (in that order, so an origin equal to the target reads the
already-emptied cell). -/
def Board.moveUnchecked (b : Board) (o t : Coord) : (Square × Square) × Board :=
  let originSquare := b.squareUnchecked o
  let b1 := b.setSquare o .Empty
  let targetSquare := b1.squareUnchecked t
  let b2 := b1.setSquare t originSquare
  ((originSquare, targetSquare), b2)

/-- State advance of `BoardIter::next`:
`row + col / 8` and `(col + 1) % 8` (the source divides the current
column, not the incremented one, by 8). -/
def boardIterNextCoord (c : Coord) : Coord :=
  ⟨c.row + c.col / 8, (c.col + 1) % 8⟩

/-- First `n` elements produced by `Board::iter` started at `c`
(`BoardIter::next` stops when the current coordinate leaves the board). -/
def Board.iterTake (b : Board) (c : Coord) : Nat → List (Square × Coord)
  | 0 => []
  | n + 1 =>
    match b.square c with
    | none => []
    | some sq => (sq, c) :: b.iterTake (boardIterNextCoord c) n

/-- First `n` elements produced by `Board::iter_path`
(`BoardPathIter::next`): step by the increment with `u8` wrapping until
the coordinate leaves the board. -/
def Board.pathIterTake (b : Board) (c : Coord) (inc : Int × Int) : Nat → List (Square × Coord)
  | 0 => []
  | n + 1 =>
    match b.square c with
    | none => []
    | some sq =>
      (sq, c) :: b.pathIterTake ⟨wrapAddSigned c.row inc.1, wrapAddSigned c.col inc.2⟩ inc n

inductive MoveShape where
  | OnlyMove
  | MoveAndAttack
  | NoMove
deriving DecidableEq, Repr

inductive MoveErr where
  | MoveToSameSquare
  | InvalidCoord
  | OriginSquareEmpty
  | DoesNotOwnOriginPiece
  | OwnsTargetPiece
  | InvalidMoveShape
  | PathNotEmpty
deriving DecidableEq, Repr

inductive CastleErr where
  | LackingPerms
deriving DecidableEq, Repr

inductive CastleSide where
  | King
  | Queen
deriving DecidableEq, Repr

structure CastleRights where
  king : Bool
  queen : Bool
deriving DecidableEq, Repr

inductive State where
  | Playing
  | Checkmate (c : Color)
  | Stalemate (c : Color)
deriving DecidableEq, Repr

/-- Mirrors `move_shape` from `position.rs`.  `dy` is the source's
`target.file - origin.file` (row difference under the identification in
the header) and `dx` its `target.rank - origin.rank` (column
difference); both are `u8` subtractions reinterpreted `as i8`, which on
the in-range coordinates reaching this function equal the plain signed
differences.  Note the source's second pawn arm compares
`origin_coord.rank` (the column) against the second-rank constant. -/
def moveShape (piece : Piece × Color) (originCoord targetCoord : Coord) : MoveShape :=
  let dy : Int := (targetCoord.row : Int) - (originCoord.row : Int)
  let dx : Int := (targetCoord.col : Int) - (originCoord.col : Int)
  let direction : Int := match piece.2 with
    | .White => 1
    | .Black => -1
  let rank2nd : Nat := match piece.2 with
    | .White => 1
    | .Black => 6
  match piece.1 with
  | .Pawn =>
    if dy = direction ∧ dx = 0 then .OnlyMove
    else if originCoord.col = rank2nd ∧ dy = direction * 2 ∧ dx = 0 then .OnlyMove
    else if dy = direction ∧ dx.natAbs = 1 then .MoveAndAttack
    else .NoMove
  | .Rook => if dx * dy = 0 then .MoveAndAttack else .NoMove
  | .King => if dx.natAbs ≤ 1 ∧ dy.natAbs ≤ 1 then .MoveAndAttack else .NoMove
  | .Queen => if dx * dy = 0 ∨ dx.natAbs = dy.natAbs then .MoveAndAttack else .NoMove
  | .Knight => if dx.natAbs * dy.natAbs = 2 then .MoveAndAttack else .NoMove
  | .Bishop => if dx.natAbs = dy.natAbs then .MoveAndAttack else .NoMove

/-- Mirrors `is_path_clear` from `position.rs`: walk the ray from the
origin in the signum direction, skip the origin itself, keep squares
while BOTH coordinates differ from the target's (the source uses `&&`),
and require all of them empty.  The fuel 16 exceeds every length the
walk can reach: the increment components are signums, so either the
walk revisits a fixed point that the take-while predicate rejects at
once, or a coordinate leaves the 0..7 board within at most 9 steps. -/
def isPathClear (board : Board) (originCoord targetCoord : Coord) : Bool :=
  let increment : Int × Int :=
    (((targetCoord.row : Int) - (originCoord.row : Int)).sign,
     ((targetCoord.col : Int) - (originCoord.col : Int)).sign)
  (((board.pathIterTake originCoord increment 16).drop 1).takeWhile
      (fun x => x.2.row != targetCoord.row && x.2.col != targetCoord.col)).all
    (fun x => x.1 == Square.Empty)

/-- Mirrors `can_move` from `position.rs`.  The same-square guard is
transcribed as written in the source: it rejects with
`MoveToSameSquare` when the two coordinates are DISTINCT (the source's
`if origin_coord != target_coord`), despite the comments around it. -/
def canMove (board : Board) (player : Color) (originCoord targetCoord : Coord) :
    Except MoveErr (Square × Square × MoveShape) :=
  match board.square originCoord with
  | none => .error .InvalidCoord
  | some originSquare =>
    match board.square targetCoord with
    | none => .error .InvalidCoord
    | some targetSquare =>
      if originCoord ≠ targetCoord then .error .MoveToSameSquare
      else
        match originSquare.piece with
        | none => .error .OriginSquareEmpty
        | some (originPiece, originPlayer) =>
          if originPlayer ≠ player then .error .DoesNotOwnOriginPiece
          else if targetSquare.player = some player then .error .OwnsTargetPiece
          else
            let shape := moveShape (originPiece, originPlayer) originCoord targetCoord
            match shape with
            | .NoMove => .error .InvalidMoveShape
            | .OnlyMove =>
              if targetSquare ≠ Square.Empty then .error .InvalidMoveShape
              else if isPathClear board originCoord targetCoord then
                .ok (originSquare, targetSquare, shape)
              else .error .PathNotEmpty
            | .MoveAndAttack =>
              if isPathClear board originCoord targetCoord then
                .ok (originSquare, targetSquare, shape)
              else .error .PathNotEmpty

/-- Stateful take-while of `iter_path` from `position.rs`, transcribed
as written: empty squares are kept; a square holding the MOVER'S OWN
color toggles the `enemy_found` flag and is kept exactly when the flag
just became true (so the walk continues past a first own piece); any
enemy-colored square stops the walk and is excluded. -/
def iterPathGo (player : Color) : Bool → List (Square × Coord) → List (Square × Coord)
  | _, [] => []
  | enemyFound, (sq, c) :: rest =>
    match sq with
    | .Empty => (sq, c) :: iterPathGo player enemyFound rest
    | .Piece _ color =>
      if color = player then
        if enemyFound then []
        else (sq, c) :: iterPathGo player true rest
      else []

/-- Mirrors `iter_path` from `position.rs`: the raw board ray from the
origin, origin skipped, filtered by the stateful take-while above.  As
in `isPathClear`, fuel 16 dominates every reachable ray length for the
unit increments this function is called with. -/
def iterPath (board : Board) (player : Color) (coord : Coord) (increment : Int × Int)
    (fuel : Nat) : List (Square × Coord) :=
  iterPathGo player false ((board.pathIterTake coord increment fuel).drop 1)

/-- Mirrors `Position`: the aggregate mutated by the move/castle entry
points.  `castleRights.1` is the pair component returned by the public
`castle_rights()` accessor. -/
structure Position where
  board : Board
  toPlay : Color
  castleRights : CastleRights × CastleRights
  state : State

/-- Mirrors `Position::can_move_piece`. -/
def Position.canMovePiece (p : Position) (originCoord targetCoord : Coord) :
    Except MoveErr (Square × Square × MoveShape) :=
  canMove p.board p.toPlay originCoord targetCoord

/-- Mirrors `Position::can_castle`, transcribed as written: only the
rights flag for the requested side in the first pair component is
consulted (the source's check/empty-path conditions are a `TODO`). -/
def Position.canCastle (p : Position) (side : CastleSide) : Except CastleErr Unit :=
  let perm := match side with
    | .Queen => p.castleRights.1.queen
    | .King => p.castleRights.1.king
  if !perm then .error .LackingPerms else .ok ()

/-- Mirrors `Position::next_turn`: flip the side to move, swap the two
components of the castling-rights pair, reset the state to `Playing`,
and return that state. -/
def Position.nextTurn (p : Position) : State × Position :=
  (State.Playing,
   { p with
     toPlay := p.toPlay.flipColor
     castleRights := (p.castleRights.2, p.castleRights.1)
     state := State.Playing })

/-- Mirrors `Position::try_move_piece`.  The `?` on `can_move_piece`
returns before any mutation; on success the board is mutated, then the
first component of the rights pair is updated from the moved piece
(both rook-corner arms of the source clear the KING flag), then
`next_turn` runs.  The `None` arm of the piece-kind match models the
source's `unwrap`, which cannot fail after a successful `can_move`. -/
def Position.tryMovePiece (p : Position) (originCoord targetCoord : Coord) :
    Except MoveErr (State × Square × Square) × Position :=
  match p.canMovePiece originCoord targetCoord with
  | .error e => (.error e, p)
  | .ok _ =>
    let m := p.board.moveUnchecked originCoord targetCoord
    let originSquare := m.1.1
    let targetSquare := m.1.2
    let p1 : Position := { p with board := m.2 }
    let firstRowY : Nat := match p1.toPlay with
      | .White => 0
      | .Black => 7
    let rights0 : CastleRights :=
      match originSquare.pieceKind with
      | some .Rook =>
        if originCoord = Coord.make firstRowY 0 then { p1.castleRights.1 with king := false }
        else if originCoord = Coord.make firstRowY 7 then { p1.castleRights.1 with king := false }
        else p1.castleRights.1
      | some .King => { p1.castleRights.1 with king := false, queen := false }
      | _ => p1.castleRights.1
    let p2 : Position := { p1 with castleRights := (rights0, p1.castleRights.2) }
    let n := p2.nextTurn
    (.ok (n.1, originSquare, targetSquare), n.2)

/-- Mirrors `Position::try_castle`.  The `?` on `can_castle` returns
before any mutation; on success the king is moved two squares and the
rook beside it, then `next_turn` runs.  The source's `(rook_x,
direction)` table pairs the KING side with the column-0 rook and
direction -1, and the Queen side with the column-7 rook and
direction +1, exactly as transcribed here. -/
def Position.tryCastle (p : Position) (side : CastleSide) :
    Except CastleErr State × Position :=
  match p.canCastle side with
  | .error e => (.error e, p)
  | .ok _ =>
    let firstRowY : Nat := match p.toPlay with
      | .White => 0
      | .Black => 7
    let rookX : Nat := match side with
      | .King => 0
      | .Queen => 7
    let direction : Int := match side with
      | .King => -1
      | .Queen => 1
    let kingX : Nat := 4
    let m1 := p.board.moveUnchecked (Coord.make firstRowY kingX)
      (Coord.make firstRowY (wrapAddSigned kingX (direction * 2)))
    let m2 := m1.2.moveUnchecked (Coord.make firstRowY rookX)
      (Coord.make firstRowY (wrapAddSigned kingX direction))
    let p1 : Position := { p with board := m2.2 }
    let n := p1.nextTurn
    (.ok n.1, n.2)

inductive PositionErr where
  | InvalidAmountOfKings
  | PawnsOnFirstRank
  | KingsTooClose
  | BothPlayersHaveChecks
deriving DecidableEq, Repr

/-- Mirrors `PositionBuilder`. -/
structure PositionBuilder where
  board : Board
  toPlay : Color

/-- King-collection loop of `PositionBuilder::is_valid`: drive
`Board::iter` (started, as everywhere in `position.rs`, at the origin
coordinate (0,0)), keep only kings, and record each color's king
coordinate, failing with `InvalidAmountOfKings` as soon as a slot is
filled twice.  The loop ends normally only if the underlying iterator
ends; `fuel` bounds the number of iterator steps, and `none` reports
that the loop was still running when the fuel ran out (the source loops
forever in that case, since `BoardIter` never leaves row 0). -/
def kingScan (b : Board) :
    Coord → Option Coord × Option Coord → Nat →
    Option (Except PositionErr (Option Coord × Option Coord))
  | _, _, 0 => none
  | c, kings, fuel + 1 =>
    match b.square c with
    | none => some (.ok kings)
    | some sq =>
      match sq with
      | .Piece .King .White =>
        if kings.1.isSome then some (.error .InvalidAmountOfKings)
        else kingScan b (boardIterNextCoord c) (some c, kings.2) fuel
      | .Piece .King .Black =>
        if kings.2.isSome then some (.error .InvalidAmountOfKings)
        else kingScan b (boardIterNextCoord c) (kings.1, some c) fuel
      | _ => kingScan b (boardIterNextCoord c) kings fuel

/-- Pawn scan of `PositionBuilder::is_valid`: `any` over `Board::iter`
restricted to coordinates whose `rank` field (the column, under the
identification in the header) is 0 or 7, looking for a pawn.  As with
`kingScan`, `none` reports fuel exhaustion, which models the source's
`any` running forever on the never-ending iterator when no such pawn
exists. -/
def pawnScan (b : Board) : Coord → Nat → Option Bool
  | _, 0 => none
  | c, fuel + 1 =>
    match b.square c with
    | none => some false
    | some sq =>
      if (c.col = 0 ∨ c.col = 7) ∧ sq.pieceKind = some Piece.Pawn then some true
      else pawnScan b (boardIterNextCoord c) fuel

/-- Mirrors `PositionBuilder::is_valid`.  After the king scan and the
pawn scan, the kings-too-close test is transcribed as written in the
source: `dx` compares the two kings' `file` fields, but `dy` compares
the BLACK king's `rank` with the BLACK king's own `file`
(`kings.1.rank.abs_diff(kings.1.file)`), and the test errors when
either value is at most 1.  The final checks section collects
`all_moves(..)`, whose every constituent iterator draws from the
never-ending `Board::iter` stream, so its `collect` cannot terminate;
the model reports that as `none`. -/
def PositionBuilder.isValidFuel (pb : PositionBuilder) (fuel : Nat) :
    Option (Except PositionErr (Coord × Coord)) :=
  match kingScan pb.board (Coord.make 0 0) (none, none) fuel with
  | none => none
  | some (.error e) => some (.error e)
  | some (.ok kings) =>
    match kings.1 with
    | none => some (.error .InvalidAmountOfKings)
    | some king0 =>
      match kings.2 with
      | none => some (.error .InvalidAmountOfKings)
      | some king1 =>
        match pawnScan pb.board (Coord.make 0 0) fuel with
        | none => none
        | some true => some (.error .PawnsOnFirstRank)
        | some false =>
          let dx := absDiffU8 king1.row king0.row
          let dy := absDiffU8 king1.col king1.row
          if dx ≤ 1 ∨ dy ≤ 1 then some (.error .KingsTooClose)
          else none

/-- Mirrors `PositionBuilder::try_build`, transcribed as written: after
a successful `is_valid()?` the body is the single expression
`Err(PositionErr::InvalidAmountOfKings)`, so no `Position` is ever
produced. -/
def PositionBuilder.tryBuildFuel (pb : PositionBuilder) (fuel : Nat) :
    Option (Except PositionErr Position) :=
  match pb.isValidFuel fuel with
  | none => none
  | some (.error e) => some (.error e)
  | some (.ok _) => some (.error .InvalidAmountOfKings)

/-- Success test for `Except` results. -/
def exceptOk : Except ε α → Bool
  | .ok _ => true
  | .error _ => false

/-- Success test for fuel-bounded `Except` results (`none` models
divergence, hence not success). -/
def optionExceptOk : Option (Except ε α) → Bool
  | some (.ok _) => true
  | _ => false

/-- Test fixture: build a board from a list of rows (missing entries are
empty squares). -/
def boardOfRows (rows : List (List Square)) : Board :=
  ⟨fun r c => (rows.getD r.val []).getD c.val Square.Empty⟩

/-- Test fixture: the standard initial chess board. -/
def initialBoard : Board :=
  boardOfRows
    [[.Piece .Rook .White, .Piece .Knight .White, .Piece .Bishop .White,
      .Piece .Queen .White, .Piece .King .White, .Piece .Bishop .White,
      .Piece .Knight .White, .Piece .Rook .White],
     List.replicate 8 (.Piece .Pawn .White),
     [], [], [], [],
     List.replicate 8 (.Piece .Pawn .Black),
     [.Piece .Rook .Black, .Piece .Knight .Black, .Piece .Bishop .Black,
      .Piece .Queen .Black, .Piece .King .Black, .Piece .Bishop .Black,
      .Piece .Knight .Black, .Piece .Rook .Black]]

/-- Test fixture: the standard initial position, White to move, full
castling rights for both players. -/
def startPos : Position :=
  ⟨initialBoard, .White, (⟨true, true⟩, ⟨true, true⟩), .Playing⟩

/-- Test fixture: a lone White pawn on (1,1). -/
def pawnBoard : Board :=
  boardOfRows [[], [.Empty, .Piece .Pawn .White]]

/-- Test fixture: White knight on (3,1), White rook on (3,3), Black pawn
on (3,4). -/
def rayBoard : Board :=
  boardOfRows
    [[], [], [],
     [.Empty, .Piece .Knight .White, .Empty, .Piece .Rook .White, .Piece .Pawn .Black]]

/-- Test fixture: builder with exactly one king per color, far apart
(White on (0,0), Black on (7,7)), White to move. -/
def farKingsBuilder : PositionBuilder :=
  ⟨boardOfRows
    [[.Piece .King .White], [], [], [], [], [], [],
     List.replicate 7 .Empty ++ [.Piece .King .Black]],
   .White⟩

/-- Test fixture: builder with exactly one king per color on adjacent
squares (0,3) and (0,4), White to move. -/
def adjacentKingsBuilder : PositionBuilder :=
  ⟨boardOfRows [[.Empty, .Empty, .Empty, .Piece .King .White, .Piece .King .Black]], .White⟩

/-- Test fixture: empty board, no castling rights, White to move. -/
def emptyPos : Position :=
  ⟨boardOfRows [], .White, (⟨false, false⟩, ⟨false, false⟩), .Playing⟩

/-- Claim C1: `try_build` never returns `Ok` — after a successful
`is_valid()?` its body is the constant `Err(InvalidAmountOfKings)`, so
no validated builder is ever turned into a `Position`; concretely, the
builder with lone kings on (0,0) and (7,7) comes back as an error. -/
theorem tryBuild_never_succeeds :
    (∀ (pb : PositionBuilder) (fuel : Nat), optionExceptOk (pb.tryBuildFuel fuel) = false) ∧
    farKingsBuilder.tryBuildFuel 64 = some (.error PositionErr.InvalidAmountOfKings) := by
  refine ⟨fun pb fuel => ?_, rfl⟩
  unfold PositionBuilder.tryBuildFuel
  cases h : pb.isValidFuel fuel with
  | none => rfl
  | some r => cases r with
    | error e => rfl
    | ok v => rfl

/-- Claim C2: whenever `try_move_piece` or `try_castle` returns an
error, the resulting `Position` (board, side to move, both rights,
state) is exactly the input: both entry points run all their checks
through a pure `can_*` call before any mutation. -/
theorem rejected_action_leaves_position_unchanged (p : Position) (o t : Coord)
    (side : CastleSide) :
    (exceptOk (p.tryMovePiece o t).1 = false → (p.tryMovePiece o t).2 = p) ∧
    (exceptOk (p.tryCastle side).1 = false → (p.tryCastle side).2 = p) := by
  constructor
  · intro h
    unfold Position.tryMovePiece at *
    cases hc : p.canMovePiece o t with
    | error e => simp [hc]
    | ok v => simp [hc, exceptOk] at h
  · intro h
    unfold Position.tryCastle at *
    cases hc : p.canCastle side with
    | error e => simp [hc]
    | ok v => simp [hc, exceptOk] at h

/-- Witness for C2: a rejected move and a rejected castle on the empty
position leave it unchanged. -/
theorem rejected_action_witness :
    (Position.tryMovePiece emptyPos (Coord.make 0 0) (Coord.make 1 1)).2 = emptyPos ∧
    (Position.tryCastle emptyPos CastleSide.King).2 = emptyPos :=
  ⟨(rejected_action_leaves_position_unchanged emptyPos (Coord.make 0 0) (Coord.make 1 1)
      CastleSide.King).1 rfl,
   (rejected_action_leaves_position_unchanged emptyPos (Coord.make 0 0) (Coord.make 1 1)
      CastleSide.King).2 rfl⟩

/-- Claim C3: on EVERY board, the whole-board iteration started at
(0,0) revisits (0,0) as its ninth element — the row advance adds
`col / 8`, which is zero for every reachable column — so the traversal
is an endless cycle over row 0, not a finite row-major enumeration of
the 64 coordinates. -/
theorem boardIter_cycles_row0 (b : Board) :
    (b.iterTake (Coord.make 0 0) 9).map Prod.snd =
      [Coord.make 0 0, Coord.make 0 1, Coord.make 0 2, Coord.make 0 3,
       Coord.make 0 4, Coord.make 0 5, Coord.make 0 6, Coord.make 0 7,
       Coord.make 0 0] := rfl

/-- Claim C4: `can_move`'s same-square guard is inverted — with a White
pawn on (1,1), the move to the distinct in-range square (2,1) is
rejected as `MoveToSameSquare`, while the degenerate move from (1,1) to
itself gets past that guard and fails later as `OwnsTargetPiece`. -/
theorem canMove_sameSquare_guard_inverted :
    canMove pawnBoard .White (Coord.make 1 1) (Coord.make 2 1) =
      .error MoveErr.MoveToSameSquare ∧
    canMove pawnBoard .White (Coord.make 1 1) (Coord.make 1 1) =
      .error MoveErr.OwnsTargetPiece := ⟨rfl, rfl⟩

/-- Claim C5: the ray walk from the White rook on (3,3) toward (0,1)
stops BEFORE the first occupied square when that square holds an enemy
piece (the Black pawn on (3,4) is excluded, so the walk yields
nothing), while toward (0,-1) it keeps walking PAST the first occupied
square when that square holds an own piece (the White knight on (3,1)
is included and the empty square behind it is yielded too). -/
theorem iterPath_first_occupied_mishandled :
    iterPath rayBoard .White (Coord.make 3 3) (0, 1) 16 = [] ∧
    rayBoard.square (Coord.make 3 4) = some (.Piece .Pawn .Black) ∧
    iterPath rayBoard .White (Coord.make 3 3) (0, -1) 16 =
      [(.Empty, Coord.make 3 2), (.Piece .Knight .White, Coord.make 3 1),
       (.Empty, Coord.make 3 0)] := ⟨rfl, rfl, rfl⟩

/-- Claim C6: `can_castle` consults nothing but the rights flag — in
the standard initial position, where the squares between the king and
either rook are occupied (f1 and g1 hold a bishop and a knight),
White's king-side castle attempt is nevertheless accepted. -/
theorem canCastle_ignores_board :
    startPos.canCastle CastleSide.King = .ok () ∧
    initialBoard.square (Coord.make 0 5) = some (.Piece .Bishop .White) ∧
    initialBoard.square (Coord.make 0 6) = some (.Piece .Knight .White) := ⟨rfl, rfl, rfl⟩

/-- Claim C7: a successful castle does NOT clear the castling color's
flags — castling White from the initial position succeeds, yet all four
rights flags are still set afterwards (the pair is merely swapped by
`next_turn`). -/
theorem castle_does_not_clear_rights :
    (startPos.tryCastle CastleSide.King).1 = .ok State.Playing ∧
    (startPos.tryCastle CastleSide.King).2.castleRights =
      (CastleRights.mk true true, CastleRights.mk true true) := ⟨rfl, rfl⟩

/-- Claim C8: after every successful `try_move_piece` and every
successful `try_castle`, the side to move is the opposite of its
pre-call value (`next_turn` flips it on every success path). -/
theorem turn_alternates_on_success (p : Position) (o t : Coord) (side : CastleSide) :
    (exceptOk (p.tryMovePiece o t).1 = true →
      (p.tryMovePiece o t).2.toPlay = p.toPlay.flipColor) ∧
    (exceptOk (p.tryCastle side).1 = true →
      (p.tryCastle side).2.toPlay = p.toPlay.flipColor) := by
  constructor
  · intro h
    unfold Position.tryMovePiece at *
    cases hc : p.canMovePiece o t with
    | error e => simp [hc, exceptOk] at h
    | ok v => simp [hc, Position.nextTurn]
  · intro h
    unfold Position.tryCastle at *
    cases hc : p.canCastle side with
    | error e => simp [hc, exceptOk] at h
    | ok v => simp [hc, Position.nextTurn]

/-- Witness for C8: White's successful king-side castle from the
initial position hands the turn to Black. -/
theorem turn_alternates_witness :
    exceptOk (startPos.tryCastle CastleSide.King).1 = true ∧
    (startPos.tryCastle CastleSide.King).2.toPlay = Color.Black :=
  ⟨rfl,
   (turn_alternates_on_success startPos (Coord.make 0 0) (Coord.make 0 0)
      CastleSide.King).2 rfl⟩

/-- Claim C10: on every successful `try_move_piece` and `try_castle`,
the rights pair is swapped in the same `next_turn` step that flips the
side to move, so the first component — the one `castle_rights()`
returns — ends up holding exactly the slot that belonged to the player
who is to move after the call. -/
theorem rights_pair_tracks_side_to_move (p : Position) (o t : Coord) (side : CastleSide) :
    (exceptOk (p.tryMovePiece o t).1 = true →
      (p.tryMovePiece o t).2.toPlay = p.toPlay.flipColor ∧
      (p.tryMovePiece o t).2.castleRights.1 = p.castleRights.2) ∧
    (exceptOk (p.tryCastle side).1 = true →
      (p.tryCastle side).2.toPlay = p.toPlay.flipColor ∧
      (p.tryCastle side).2.castleRights.1 = p.castleRights.2) := by
  constructor
  · intro h
    unfold Position.tryMovePiece at *
    cases hc : p.canMovePiece o t with
    | error e => simp [hc, exceptOk] at h
    | ok v => constructor <;> simp [hc, Position.nextTurn]
  · intro h
    unfold Position.tryCastle at *
    cases hc : p.canCastle side with
    | error e => simp [hc, exceptOk] at h
    | ok v => constructor <;> simp [hc, Position.nextTurn]

/-- Witness for C10: after White's successful queen-side castle from
the initial position, the accessor component of the rights pair holds
the slot that tracked Black, the player now to move. -/
theorem rights_pair_witness :
    exceptOk (startPos.tryCastle CastleSide.Queen).1 = true ∧
    (startPos.tryCastle CastleSide.Queen).2.castleRights.1 = CastleRights.mk true true :=
  ⟨rfl,
   ((rights_pair_tracks_side_to_move startPos (Coord.make 0 0) (Coord.make 0 0)
      CastleSide.Queen).2 rfl).2⟩

/-- Claim C9: with exactly one king per color on adjacent squares (0,3)
and (0,4), validation reports `InvalidAmountOfKings`, not
`KingsTooClose` — the board iterator cycles over row 0 forever, meets
the White king a second time, and the adjacency test (itself comparing
the Black king's rank against its own file) is never reached. -/
theorem isValid_adjacent_kings_wrong_error :
    adjacentKingsBuilder.isValidFuel 64 = some (.error PositionErr.InvalidAmountOfKings) ∧
    adjacentKingsBuilder.board.square (Coord.make 0 3) = some (.Piece .King .White) ∧
    adjacentKingsBuilder.board.square (Coord.make 0 4) = some (.Piece .King .Black) :=
  ⟨rfl, rfl, rfl⟩
